import Mathlib

/-!
Shallow embedding of `src/packages/controllers/src/secure_admin.rs` (the
`SecureAdmin` two-step admin transfer finite state machine from the cw-plus
controllers package).

Modelling choices:
* `Addr` is a transparent string wrapper in cosmwasm, so identities are plain
  `String`s here; `Addr`-to-string conversion is the identity.
* The persisted `Item<AdminState>` is modelled as `Storage := Option AdminState`:
  `none` is "no record stored", `Item.save` stores `some`.  `Item.may_load` and
  `Item.save` never fail in this model (storage errors are an external concern).
* `api.addr_validate` is an abstract collaborator: operations are parametrised
  by `Api := String → Except String String` returning either the validated
  identity or a `StdError` message.
* `initialize` and `update` are written in state-passing style
  `Storage → Storage × Except SecureAdminError _`, mirroring exactly where the
  Rust code performs its single `self.0.save`: only after `transition_state`
  (which performs no writes) has succeeded.  The `?` early returns therefore
  leave the storage component untouched.
-/

namespace SecureAdmin

/-- The validator collaborator (`dyn Api::addr_validate`): maps a raw string to
a validated identity or fails with a `StdError` message. -/
abbrev Api := String → Except String String

/-- Embeds Rust `AdminState`: the sole persisted record. -/
structure AdminState where
  abolished : Bool
  admin : Option String
  proposed : Option String
  deriving DecidableEq, Repr

/-- Embeds Rust `SecureAdminError` (`Std` carries the `StdError` message). -/
inductive SecureAdminError where
  | Std (msg : String)
  | NotAdmin
  | NotProposedAdmin
  | AlreadyInitialized
  | AdminRoleAbolished
  deriving DecidableEq, Repr

/-- Embeds Rust `AdminInit`. -/
inductive AdminInit where
  | SetInitialAdmin (admin : String)
  | AbolishAdminRole
  deriving DecidableEq, Repr

/-- Embeds Rust `SecureAdminUpdate`. -/
inductive SecureAdminUpdate where
  | ProposeNewAdmin (proposed : String)
  | ClearProposed
  | AcceptProposed
  | AbolishAdminRole
  deriving DecidableEq, Repr

/-- The storage slot of the `Item<AdminState>`: either absent or one record. -/
abbrev Storage := Option AdminState

/-- The `unwrap_or` default used in `SecureAdmin::state`. -/
def defaultState : AdminState :=
  { abolished := false, admin := none, proposed := none }

/-- Embeds `SecureAdmin::state`: `may_load(storage)?.unwrap_or(default)`. -/
def state (storage : Storage) : AdminState :=
  storage.getD defaultState

/-- Embeds `SecureAdmin::current`. -/
def current (storage : Storage) : Option String :=
  (state storage).admin

/-- Embeds `SecureAdmin::is_admin`. -/
def is_admin (storage : Storage) (addr : String) : Bool :=
  match current storage with
  | some admin => admin == addr
  | none => false

/-- Embeds `SecureAdmin::proposed`. -/
def proposed (storage : Storage) : Option String :=
  (state storage).proposed

/-- Embeds `SecureAdmin::is_proposed`. -/
def is_proposed (storage : Storage) (addr : String) : Bool :=
  match proposed storage with
  | some p => p == addr
  | none => false

/-- Embeds Rust `SecureAdminResponse`. -/
structure SecureAdminResponse where
  admin : Option String
  proposed : Option String
  deriving DecidableEq, Repr

/-- Embeds `SecureAdmin::query` (`Addr`-to-`String` is the identity here). -/
def query (storage : Storage) : SecureAdminResponse :=
  { admin := current storage, proposed := proposed storage }

/-- Embeds `SecureAdmin::assert_admin`. -/
def assert_admin (storage : Storage) (caller : String) :
    Except SecureAdminError Unit :=
  if !(is_admin storage caller) then .error .NotAdmin else .ok ()

/-- Embeds `SecureAdmin::assert_proposed`. -/
def assert_proposed (storage : Storage) (caller : String) :
    Except SecureAdminError Unit :=
  if !(is_proposed storage caller) then .error .NotProposedAdmin else .ok ()

/-- Embeds `SecureAdmin::initialize` (named `init` here; `initialize` is not
usable as a Lean name in this development).  State-passing: the returned
`Storage` is the slot after the call; errors perform no save. -/
def init (api : Api) (storage : Storage) (init_action : AdminInit) :
    Storage × Except SecureAdminError Unit :=
  let st := state storage
  if st.abolished then
    (storage, .error .AdminRoleAbolished)
  else if st.admin.isSome then
    (storage, .error .AlreadyInitialized)
  else
    match init_action with
    | .SetInitialAdmin admin =>
      match api admin with
      | .error e => (storage, .error (.Std e))
      | .ok validated =>
        (some { abolished := false, admin := some validated, proposed := none },
          .ok ())
    | .AbolishAdminRole =>
      (some { abolished := true, admin := none, proposed := none }, .ok ())

/-- Embeds `SecureAdmin::transition_state`.  Performs no storage writes; the
caller (`update`) saves the returned state. -/
def transition_state (api : Api) (storage : Storage) (sender : String)
    (event : SecureAdminUpdate) : Except SecureAdminError AdminState :=
  let st := state storage
  if st.abolished then
    .error .AdminRoleAbolished
  else
    match event with
    | .ProposeNewAdmin raw =>
      match assert_admin storage sender with
      | .error e => .error e
      | .ok _ =>
        match api raw with
        | .error e => .error (.Std e)
        | .ok validated => .ok { st with proposed := some validated }
    | .AbolishAdminRole =>
      match assert_admin storage sender with
      | .error e => .error e
      | .ok _ => .ok { st with abolished := true, proposed := none, admin := none }
    | .ClearProposed =>
      match assert_admin storage sender with
      | .error e => .error e
      | .ok _ => .ok { st with proposed := none }
    | .AcceptProposed =>
      match assert_proposed storage sender with
      | .error e => .error e
      | .ok _ => .ok { st with admin := some sender, proposed := none }

/-- One response attribute (`Response::add_attribute` key/value pair). -/
structure Attr where
  key : String
  value : String
  deriving DecidableEq, Repr

/-- Embeds `SecureAdmin::update`: runs `transition_state`, saves the new state
on success, then builds the response attributes from a fresh `query`.  The
returned `Storage` is the slot after the call; on error nothing was saved. -/
def update (api : Api) (storage : Storage) (sender : String)
    (event : SecureAdminUpdate) :
    Storage × Except SecureAdminError (List Attr) :=
  match transition_state api storage sender event with
  | .error e => (storage, .error e)
  | .ok new_state =>
    let storage2 : Storage := some new_state
    let res := query storage2
    (storage2,
      .ok [{ key := "action", value := "update_admin" },
           { key := "admin", value := res.admin.getD "None" },
           { key := "proposed", value := res.proposed.getD "None" },
           { key := "sender", value := sender }])

/-- A single mutation request against the record, with its authenticated
caller where relevant. -/
inductive Op where
  | ini (init_action : AdminInit)
  | upd (sender : String) (event : SecureAdminUpdate)

/-- The storage after running one operation (errors leave storage unchanged,
as each operation's state-passing form guarantees). -/
def applyOp (api : Api) (storage : Storage) : Op → Storage
  | .ini a => (init api storage a).1
  | .upd sender event => (update api storage sender event).1

/-- Storage slots reachable from the uninitialized record (absent slot) by any
sequence of `initialize`/`update` calls, with any validator and any caller. -/
inductive Reachable : Storage → Prop where
  | start : Reachable none
  | step {s : Storage} (api : Api) (op : Op) :
      Reachable s → Reachable (applyOp api s op)

/-- The two record invariants from the spec's data model. -/
def Inv (st : AdminState) : Prop :=
  (st.abolished = true → st.admin = none ∧ st.proposed = none) ∧
  (st.proposed ≠ none → st.admin ≠ none)

theorem is_admin_iff (s : Storage) (c : String) :
    is_admin s c = true ↔ (state s).admin = some c := by
  unfold is_admin current
  cases h : (state s).admin <;> simp [h]

theorem is_proposed_iff (s : Storage) (c : String) :
    is_proposed s c = true ↔ (state s).proposed = some c := by
  unfold is_proposed proposed
  cases h : (state s).proposed <;> simp [h]

theorem assert_admin_eq (s : Storage) (c : String) :
    assert_admin s c =
      if (state s).admin = some c then Except.ok () else .error .NotAdmin := by
  unfold assert_admin
  by_cases h : (state s).admin = some c
  · simp [h, (is_admin_iff s c).mpr h]
  · have hb : is_admin s c = false := by
      cases hb : is_admin s c
      · rfl
      · exact absurd ((is_admin_iff s c).mp hb) h
    simp [h, hb]

theorem assert_proposed_eq (s : Storage) (c : String) :
    assert_proposed s c =
      if (state s).proposed = some c then Except.ok () else .error .NotProposedAdmin := by
  unfold assert_proposed
  by_cases h : (state s).proposed = some c
  · simp [h, (is_proposed_iff s c).mpr h]
  · have hb : is_proposed s c = false := by
      cases hb : is_proposed s c
      · rfl
      · exact absurd ((is_proposed_iff s c).mp hb) h
    simp [h, hb]

theorem init_error_frame (api : Api) (s : Storage) (a : AdminInit)
    (err : SecureAdminError) (h : (init api s a).2 = .error err) :
    (init api s a).1 = s := by
  unfold init at h ⊢
  by_cases h1 : (state s).abolished = true
  · simp [h1]
  · by_cases h2 : (state s).admin.isSome = true
    · simp [h1, h2]
    · cases a with
      | SetInitialAdmin admin =>
        cases hv : api admin
        · simp [h1, h2, hv]
        · simp [h1, h2, hv] at h
      | AbolishAdminRole => simp [h1, h2] at h

theorem update_error_frame (api : Api) (s : Storage) (c : String)
    (e : SecureAdminUpdate) (err : SecureAdminError)
    (h : (update api s c e).2 = .error err) :
    (update api s c e).1 = s := by
  unfold update at h ⊢
  cases ht : transition_state api s c e <;> simp [ht] at h ⊢

theorem transition_ok_inv (api : Api) (s : Storage) (c : String)
    (e : SecureAdminUpdate) (st2 : AdminState)
    (h : transition_state api s c e = .ok st2) : Inv st2 := by
  unfold transition_state at h
  by_cases hab : (state s).abolished = true
  · simp [hab] at h
  · rw [assert_admin_eq, assert_proposed_eq] at h
    cases e with
    | ProposeNewAdmin raw =>
      by_cases hadm : (state s).admin = some c
      · cases hv : api raw <;> simp [hab, hadm, hv] at h
        refine ⟨fun habol => absurd habol (by simp [h.symm, hab]), fun _ => ?_⟩
        simp [h.symm, hadm]
      · simp [hab, hadm] at h
    | AbolishAdminRole =>
      by_cases hadm : (state s).admin = some c
      · simp [hab, hadm] at h
        exact ⟨fun _ => by simp [h.symm], fun hp => absurd (by simp [h.symm]) hp⟩
      · simp [hab, hadm] at h
    | ClearProposed =>
      by_cases hadm : (state s).admin = some c
      · simp [hab, hadm] at h
        refine ⟨fun habol => absurd habol (by simp [h.symm, hab]), fun hp => ?_⟩
        exact absurd (by simp [h.symm]) hp
      · simp [hab, hadm] at h
    | AcceptProposed =>
      by_cases hprop : (state s).proposed = some c
      · simp [hab, hprop] at h
        refine ⟨fun habol => absurd habol (by simp [h.symm, hab]), fun _ => ?_⟩
        simp [h.symm]
      · simp [hab, hprop] at h

theorem init_ok_inv (api : Api) (s : Storage) (a : AdminInit)
    (h : (init api s a).2 = .ok ()) : Inv (state (init api s a).1) := by
  by_cases h1 : (state s).abolished = true
  · exfalso; unfold init at h; simp [h1] at h
  · by_cases h2 : (state s).admin.isSome = true
    · exfalso; unfold init at h; simp [h1, h2] at h
    · cases a with
      | SetInitialAdmin admin =>
        cases hv : api admin with
        | error e => exfalso; unfold init at h; simp [h1, h2, hv] at h
        | ok v =>
          have hgoal : (init api s (.SetInitialAdmin admin)).1 =
              some { abolished := false, admin := some v, proposed := none } := by
            unfold init; simp [h1, h2, hv]
          rw [hgoal]
          simp [Inv, state]
      | AbolishAdminRole =>
        have hgoal : (init api s .AbolishAdminRole).1 =
            some { abolished := true, admin := none, proposed := none } := by
          unfold init; simp [h1, h2]
        rw [hgoal]
        simp [Inv, state]

theorem inv_preserved (api : Api) (s : Storage) (op : Op)
    (hs : Inv (state s)) : Inv (state (applyOp api s op)) := by
  cases op with
  | ini a =>
    show Inv (state (init api s a).1)
    cases h : (init api s a).2 with
    | error err =>
      rw [init_error_frame api s a err h]
      exact hs
    | ok u =>
      cases u
      exact init_ok_inv api s a h
  | upd c e =>
    show Inv (state (update api s c e).1)
    unfold update
    cases ht : transition_state api s c e with
    | error err => simpa using hs
    | ok st2 => simpa using transition_ok_inv api s c e st2 ht

/-- A trivially accepting validator, used to instantiate witnesses. -/
def apiOk : Api := fun raw => .ok raw

/-- C1: for every state whose record has `abolished == true` (in particular
every reachable such state), every `initialize` call and every `update` call —
for every request kind, every caller and every validator — fails with
`AdminRoleAbolished`, before any per-request guard can produce a different
error, and the persisted record is left unchanged. -/
theorem c1_abolished_terminal (s : Storage)
    (h : (state s).abolished = true) :
    (∀ (api : Api) (a : AdminInit),
      init api s a = (s, .error .AdminRoleAbolished)) ∧
    (∀ (api : Api) (sender : String) (event : SecureAdminUpdate),
      update api s sender event = (s, .error .AdminRoleAbolished)) := by
  constructor
  · intro api a
    unfold init
    simp [h]
  · intro api sender event
    have ht : transition_state api s sender event = .error .AdminRoleAbolished := by
      unfold transition_state
      simp [h]
    unfold update
    rw [ht]

/-- Witness for C1 at the abolished record: an `initialize` attempt fails with
`AdminRoleAbolished` and keeps the stored record. -/
theorem c1_witness :
    init apiOk (some { abolished := true, admin := none, proposed := none })
        (.SetInitialAdmin "abc") =
      (some { abolished := true, admin := none, proposed := none },
        .error .AdminRoleAbolished) :=
  (c1_abolished_terminal
    (some { abolished := true, admin := none, proposed := none }) rfl).1 apiOk _

/-- C2: every storage slot reachable from the uninitialized default satisfies
the two record invariants (`abolished → admin = none ∧ proposed = none`, and
`proposed ≠ none → admin ≠ none`), and the slot after any successful
`initialize` or `update` satisfies them as well. -/
theorem c2_invariants :
    (∀ s : Storage, Reachable s → Inv (state s)) ∧
    (∀ (api : Api) (s : Storage) (a : AdminInit),
      (init api s a).2 = .ok () → Inv (state (init api s a).1)) ∧
    (∀ (api : Api) (s : Storage) (c : String) (e : SecureAdminUpdate)
        (out : List Attr),
      (update api s c e).2 = .ok out → Inv (state (update api s c e).1)) := by
  refine ⟨?_, ?_, ?_⟩
  · intro s h
    induction h with
    | start => exact ⟨by simp [state, defaultState], by simp [state, defaultState]⟩
    | step api op _ ih => exact inv_preserved api _ op ih
  · intro api s a h
    exact init_ok_inv api s a h
  · intro api s c e out h
    show Inv (state (update api s c e).1)
    unfold update at h ⊢
    cases ht : transition_state api s c e with
    | error err => simp [ht] at h
    | ok st2 => simpa using transition_ok_inv api s c e st2 ht

/-- Witness for C2 at the initial (absent) slot. -/
theorem c2_witness : Inv (state (none : Storage)) :=
  c2_invariants.1 none Reachable.start

/-- C3: in every non-abolished state, `update(AcceptProposed)` fails with
`NotProposedAdmin` whenever `proposed` is `none` or differs from the caller,
leaving storage unchanged; when the caller equals `proposed` it succeeds,
setting `admin := some caller` and `proposed := none`, for every validator
(the caller identity is never re-validated). -/
theorem c3_accept_proposed (s : Storage) (c : String) (api : Api)
    (hab : (state s).abolished = false) :
    ((state s).proposed ≠ some c →
      update api s c .AcceptProposed = (s, .error .NotProposedAdmin)) ∧
    ((state s).proposed = some c →
      ∃ out, update api s c .AcceptProposed =
        (some { state s with admin := some c, proposed := none }, .ok out)) := by
  have hab2 : ¬((state s).abolished = true) := by simp [hab]
  constructor
  · intro hne
    have ht : transition_state api s c .AcceptProposed =
        .error .NotProposedAdmin := by
      unfold transition_state
      simp [hab2, assert_proposed_eq, hne]
    unfold update
    rw [ht]
  · intro hp
    have ht : transition_state api s c .AcceptProposed =
        .ok { state s with admin := some c, proposed := none } := by
      unfold transition_state
      simp [hab2, assert_proposed_eq, hp]
    unfold update
    rw [ht]
    exact ⟨_, rfl⟩

/-- Witness for C3: the proposed admin accepts and becomes admin. -/
theorem c3_witness :
    ∃ out,
      update apiOk
          (some { abolished := false, admin := some "a", proposed := some "b" })
          "b" .AcceptProposed =
        (some { abolished := false, admin := some "b", proposed := none },
          .ok out) :=
  (c3_accept_proposed
    (some { abolished := false, admin := some "a", proposed := some "b" })
    "b" apiOk rfl).2 rfl

/-- C4: in every non-abolished state (including `admin = none`), a caller that
is not the current admin gets `NotAdmin` (with storage unchanged) from
`ProposeNewAdmin` (any raw identity), `ClearProposed`, and `AbolishAdminRole`;
when `admin = none` the hypothesis holds for every caller, so nobody can
succeed at these three operations. -/
theorem c4_not_admin_guard (s : Storage) (c : String) (api : Api)
    (hab : (state s).abolished = false) (hadm : (state s).admin ≠ some c) :
    (∀ raw, update api s c (.ProposeNewAdmin raw) = (s, .error .NotAdmin)) ∧
    update api s c .ClearProposed = (s, .error .NotAdmin) ∧
    update api s c .AbolishAdminRole = (s, .error .NotAdmin) := by
  have hab2 : ¬((state s).abolished = true) := by simp [hab]
  refine ⟨fun raw => ?_, ?_, ?_⟩ <;>
  · unfold update transition_state
    simp [hab2, assert_admin_eq, hadm]

/-- Witness for C4: a non-admin caller cannot clear the proposal. -/
theorem c4_witness :
    update apiOk (some { abolished := false, admin := some "a", proposed := none })
        "b" .ClearProposed =
      (some { abolished := false, admin := some "a", proposed := none },
        .error .NotAdmin) :=
  (c4_not_admin_guard
    (some { abolished := false, admin := some "a", proposed := none })
    "b" apiOk rfl (by decide)).2.1

/-- C5: `initialize` checks `abolished` first (failing `AdminRoleAbolished`),
then an existing admin (failing `AlreadyInitialized`); otherwise
`SetInitialAdmin` runs the validator — propagating its error wrapped in `Std`
on malformed input, and storing `Owned(validated)` with no proposal on
success — while `AbolishAdminRole` stores the abolished record directly. -/
theorem c5_init_spec (api : Api) (s : Storage) :
    ((state s).abolished = true →
      ∀ a, init api s a = (s, .error .AdminRoleAbolished)) ∧
    ((state s).abolished = false → (state s).admin ≠ none →
      ∀ a, init api s a = (s, .error .AlreadyInitialized)) ∧
    ((state s).abolished = false → (state s).admin = none →
      (∀ raw e, api raw = .error e →
        init api s (.SetInitialAdmin raw) = (s, .error (.Std e))) ∧
      (∀ raw v, api raw = .ok v →
        init api s (.SetInitialAdmin raw) =
          (some { abolished := false, admin := some v, proposed := none },
            .ok ())) ∧
      init api s .AbolishAdminRole =
        (some { abolished := true, admin := none, proposed := none },
          .ok ())) := by
  refine ⟨?_, ?_, ?_⟩
  · intro h a
    unfold init
    simp [h]
  · intro hab hadm a
    have hab2 : ¬((state s).abolished = true) := by simp [hab]
    have h2 : (state s).admin.isSome = true := by
      simp [Option.isSome_iff_ne_none, hadm]
    unfold init
    simp [hab2, h2]
  · intro hab hadm
    have hab2 : ¬((state s).abolished = true) := by simp [hab]
    have h2 : ¬((state s).admin.isSome = true) := by simp [hadm]
    refine ⟨?_, ?_, ?_⟩
    · intro raw e hv
      unfold init
      simp [hab2, h2, hv]
    · intro raw v hv
      unfold init
      simp [hab2, h2, hv]
    · unfold init
      simp [hab2, h2]

/-- Witness for C5: abolishing from the uninitialized slot stores the
abolished record. -/
theorem c5_witness :
    init apiOk (none : Storage) .AbolishAdminRole =
      (some { abolished := true, admin := none, proposed := none }, .ok ()) :=
  ((c5_init_spec apiOk none).2.2 rfl rfl).2.2

/-- C6: whenever `initialize` or `update` returns any error, the storage slot
after the call is exactly the slot before it — no partial state is saved. -/
theorem c6_error_atomicity (api : Api) (s : Storage) (c : String)
    (a : AdminInit) (e : SecureAdminUpdate) (err : SecureAdminError) :
    ((init api s a).2 = .error err → (init api s a).1 = s) ∧
    ((update api s c e).2 = .error err → (update api s c e).1 = s) :=
  ⟨init_error_frame api s a err, update_error_frame api s c e err⟩

/-- Witness for C6: a failing `ClearProposed` on the empty slot leaves it
empty. -/
theorem c6_witness :
    (update apiOk (none : Storage) "c" .ClearProposed).1 = none :=
  (c6_error_atomicity apiOk none "c" (.SetInitialAdmin "x") .ClearProposed
    .NotAdmin).2 rfl

/-- C7: when the caller is the current admin and the raw identity validates,
`update(ProposeNewAdmin raw)` succeeds and stores the old record with only
`proposed` replaced by the validated identity — `admin` and `abolished`
untouched — whether or not a proposal was already pending (overwrite). -/
theorem c7_propose_frame (s : Storage) (c raw v : String) (api : Api)
    (hab : (state s).abolished = false) (hadm : (state s).admin = some c)
    (hval : api raw = .ok v) :
    ∃ out, update api s c (.ProposeNewAdmin raw) =
      (some { state s with proposed := some v }, .ok out) := by
  have hab2 : ¬((state s).abolished = true) := by simp [hab]
  have ht : transition_state api s c (.ProposeNewAdmin raw) =
      .ok { state s with proposed := some v } := by
    unfold transition_state
    simp [hab2, assert_admin_eq, hadm, hval]
  unfold update
  rw [ht]
  exact ⟨_, rfl⟩

/-- Witness for C7: the admin overwrites a pending proposal. -/
theorem c7_witness :
    ∃ out,
      update apiOk
          (some { abolished := false, admin := some "a", proposed := some "p" })
          "a" (.ProposeNewAdmin "b") =
        (some { abolished := false, admin := some "a", proposed := some "b" },
          .ok out) :=
  c7_propose_frame
    (some { abolished := false, admin := some "a", proposed := some "p" })
    "a" "b" "b" apiOk rfl rfl rfl

theorem clear_fst (api : Api) (s : Storage) (c : String)
    (hab : (state s).abolished = false) (hadm : (state s).admin = some c) :
    (update api s c .ClearProposed).1 =
      some { state s with proposed := none } := by
  have hab2 : ¬((state s).abolished = true) := by simp [hab]
  have ht : transition_state api s c .ClearProposed =
      .ok { state s with proposed := none } := by
    unfold transition_state
    simp [hab2, assert_admin_eq, hadm]
  unfold update
  rw [ht]

/-- C8: in any non-abolished state whose admin is the caller,
`update(ClearProposed)` succeeds, storing the record with `proposed := none`
and `admin`/`abolished` unchanged; if `proposed` was already `none` the stored
slot is identical to the input, and two consecutive calls store the same slot
as one. -/
theorem c8_clear_idempotent (s : Storage) (c : String) (api : Api)
    (hab : (state s).abolished = false) (hadm : (state s).admin = some c) :
    (∃ out, update api s c .ClearProposed =
      (some { state s with proposed := none }, .ok out)) ∧
    ((state s).proposed = none → (update api s c .ClearProposed).1 = s) ∧
    (update api (update api s c .ClearProposed).1 c .ClearProposed).1 =
      (update api s c .ClearProposed).1 := by
  have hab2 : ¬((state s).abolished = true) := by simp [hab]
  have ht : transition_state api s c .ClearProposed =
      .ok { state s with proposed := none } := by
    unfold transition_state
    simp [hab2, assert_admin_eq, hadm]
  refine ⟨?_, ?_, ?_⟩
  · unfold update
    rw [ht]
    exact ⟨_, rfl⟩
  · intro hp
    rw [clear_fst api s c hab hadm]
    cases s with
    | none => exact absurd hadm (by simp [state, defaultState])
    | some st =>
      cases st with
      | mk ab ad pr =>
        simp only [state, Option.getD_some] at hp
        simp [hp, state]
  · rw [clear_fst api s c hab hadm,
      clear_fst api (some { state s with proposed := none }) c hab hadm]
    rfl

/-- Witness for C8: clearing with no pending proposal keeps the slot
identical. -/
theorem c8_witness :
    (update apiOk
        (some { abolished := false, admin := some "a", proposed := none })
        "a" .ClearProposed).1 =
      some { abolished := false, admin := some "a", proposed := none } :=
  (c8_clear_idempotent
    (some { abolished := false, admin := some "a", proposed := none })
    "a" apiOk rfl rfl).2.1 rfl

/-- C9: the absent slot behaves exactly like an explicitly stored default
record `{abolished := false, admin := none, proposed := none}`: every query
returns the same value, and every `initialize`/`update` returns the same
result or error with semantically equal resulting slots (equal under `state`,
the spec's absence-equals-default reading of stored records). -/
theorem c9_absent_default_equiv :
    state none = state (some defaultState) ∧
    (∀ (api : Api) (a : AdminInit),
      (init api none a).2 = (init api (some defaultState) a).2 ∧
      state (init api none a).1 = state (init api (some defaultState) a).1) ∧
    (∀ (api : Api) (c : String) (e : SecureAdminUpdate),
      (update api none c e).2 = (update api (some defaultState) c e).2 ∧
      state (update api none c e).1 =
        state (update api (some defaultState) c e).1) ∧
    query none = query (some defaultState) ∧
    (∀ c, is_admin none c = is_admin (some defaultState) c ∧
      is_proposed none c = is_proposed (some defaultState) c) ∧
    current none = current (some defaultState) ∧
    proposed none = proposed (some defaultState) := by
  refine ⟨rfl, ?_, ?_, rfl, fun c => ⟨rfl, rfl⟩, rfl, rfl⟩
  · intro api a
    constructor
    · unfold init
      cases a with
      | SetInitialAdmin admin =>
        cases hv : api admin <;> simp [hv, state, defaultState]
      | AbolishAdminRole => rfl
    · unfold init
      cases a with
      | SetInitialAdmin admin =>
        cases hv : api admin <;> simp [hv, state, defaultState]
      | AbolishAdminRole => rfl
  · intro api c e
    have hts : transition_state api none c e =
        transition_state api (some defaultState) c e := rfl
    constructor
    · unfold update
      rw [hts]
      cases transition_state api (some defaultState) c e <;> rfl
    · unfold update
      rw [hts]
      cases transition_state api (some defaultState) c e <;> rfl

/-- C10: every successful `update` returns exactly four attributes: the
constant `action = "update_admin"` (for all four request kinds), the resulting
admin and proposed rendered through `Option.getD _ "None"` (so an absent
identity renders as the same string as an identity literally equal to
`"None"`), and the caller as `sender`. -/
theorem c10_update_attrs (api : Api) (s : Storage) (c : String)
    (e : SecureAdminUpdate) (s2 : Storage) (out : List Attr)
    (h : update api s c e = (s2, .ok out)) :
    out = [{ key := "action", value := "update_admin" },
           { key := "admin", value := ((state s2).admin).getD "None" },
           { key := "proposed", value := ((state s2).proposed).getD "None" },
           { key := "sender", value := c }] := by
  unfold update at h
  cases ht : transition_state api s c e with
  | error err => rw [ht] at h; simp at h
  | ok st2 =>
    rw [ht] at h
    simp only [Prod.mk.injEq, Except.ok.injEq] at h
    obtain ⟨hs2, hout⟩ := h
    subst hs2
    rw [← hout]
    rfl

/-- Witness for C10: the attribute list of a concrete successful accept. -/
theorem c10_witness :
    ([{ key := "action", value := "update_admin" },
      { key := "admin", value := "b" },
      { key := "proposed", value := "None" },
      { key := "sender", value := "b" }] : List Attr) =
    [{ key := "action", value := "update_admin" },
     { key := "admin",
       value := ((state (some { abolished := false, admin := some "b", proposed := none })).admin).getD "None" },
     { key := "proposed",
       value := ((state (some { abolished := false, admin := some "b", proposed := none })).proposed).getD "None" },
     { key := "sender", value := "b" }] :=
  c10_update_attrs apiOk
    (some { abolished := false, admin := some "a", proposed := some "b" })
    "b" .AcceptProposed
    (some { abolished := false, admin := some "b", proposed := none })
    [{ key := "action", value := "update_admin" },
     { key := "admin", value := "b" },
     { key := "proposed", value := "None" },
     { key := "sender", value := "b" }]
    rfl

end SecureAdmin
